import Mathlib

/-!
Verification of the semver constraint algebra (`constraint.go`).

The source file defines a closed `Constraint` interface with five variants:
`any` (Universal), `none` (Empty), `*Version` (Exact), `rangeConstraint`
(Range) and `unionConstraint` (Union), together with the operators
`Admits`, `Intersect`, the free n-ary functions `Intersection` and `Union`,
and the predicates `IsNone` / `IsAny`.

The `Version` collaborator lives outside the core (`version.go` is not part
of the verified sources); the spec declares it an opaque, totally ordered,
immutable value type exposing `Compare`/`Equal`/`LessThan`/`GreaterThan`.
We model it as `Nat` (any linear order works for the algebra); decimal
versions of the spec's examples are scaled by ten, e.g. `1.0 ↦ 10`,
`1.5 ↦ 15`, `5.0 ↦ 50`.

Go `nil` pointers for optional bounds become `Option`; Go `panic` outcomes
become the `error` side of an `Except GoPanic` result (`panic` aborts the
whole call, exactly as `Except` short-circuits).
-/

namespace Semver

/-- Modelled from the spec: three-way comparison of the external
`Version` collaborator (`version.go` is not among the sources; the spec
declares an opaque, immutable, totally ordered value type, which we
instantiate with `Nat`): `v.Compare(o)` is `-1`/`0`/`1` for
`v < o`/`v = o`/`v > o`. -/
def Version.Compare (a b : Nat) : Int :=
  if a < b then -1 else if b < a then 1 else 0

/-- Modelled from the spec: `Version.LessThan` convenience of the
collaborator's total order. -/
def Version.LessThan (a b : Nat) : Bool := a < b

/-- Modelled from the spec: `Version.GreaterThan` convenience. -/
def Version.GreaterThan (a b : Nat) : Bool := b < a

/-- Modelled from the spec: `Version.Equal` convenience. -/
def Version.Equal (a b : Nat) : Bool := a == b

/-- Go panics reachable from the constraint algebra: the nil-pointer
dereference in the range/range bound check, and the
`panic("unfinished")` of the n-ary `Union` constructor. -/
inductive GoPanic where
  | nilDereference
  | unionUnfinished
deriving Repr, DecidableEq

/-- The error values produced by `Admits` implementations.  Each
constructor corresponds to one error message of the source and carries
the data interpolated into that message:
`noneErr` is the fixed singleton of the `none` constraint;
`ltMin v mn` is `"%s is less than %s" (v, min)` (inclusive lower bound);
`leMin v mn` is `"%s is less than or equal to %s" (v, min)`;
`gtMax v mx` is `"%s is greater than %s" (v, max)`;
`geMax v mx` is `"%s is greater than or equal to %s" (v, max)`;
`excluded v` is `"Version %s is specifically disallowed." (v)`;
`versionMismatch w v` is the Exact constraint's inequality error
(modelled from the spec, `version.go` is not among the sources). -/
inductive AdmitsErr where
  | noneErr
  | ltMin (v mn : Nat)
  | leMin (v mn : Nat)
  | gtMax (v mx : Nat)
  | geMax (v mx : Nat)
  | excluded (v : Nat)
  | versionMismatch (w v : Nat)
deriving Repr, DecidableEq

/-- Source `rangeConstraint`: optional `min`/`max` bounds (`*Version` in Go,
`nil` = absent), inclusivity flags, and the exclusion list `excl`. -/
structure rangeConstraint where
  min : Option Nat
  max : Option Nat
  includeMin : Bool
  includeMax : Bool
  excl : List Nat
deriving Repr, DecidableEq

/-- The closed `Constraint` interface: `any{}`, `none{}`, `*Version`
(Exact), `rangeConstraint`, `unionConstraint` (a `[]Constraint`). -/
inductive Constraint where
  | any
  | none
  | version (v : Nat)
  | range (rc : rangeConstraint)
  | union (cs : List Constraint)
deriving Repr

/-- Source `rangeConstraint.Admits`, lower-bound leg (lines 100-115): with a
present `min`, compare `rc.min.Compare(v)`; an inclusive bound fails on
`cmp == 1`, an exclusive bound fails on `cmp != -1`. -/
def checkMin (rc : rangeConstraint) (v : Nat) : Option AdmitsErr :=
  match rc.min with
  | Option.none => Option.none
  | some mn =>
    if rc.includeMin then
      if Version.Compare mn v = 1 then some (AdmitsErr.ltMin v mn) else Option.none
    else
      if Version.Compare mn v ≠ -1 then some (AdmitsErr.leMin v mn) else Option.none

/-- Source `rangeConstraint.Admits`, upper-bound leg (lines 117-132): with a
present `max`, an inclusive bound fails on `cmp == -1`, an exclusive
bound fails on `cmp != 1`. -/
def checkMax (rc : rangeConstraint) (v : Nat) : Option AdmitsErr :=
  match rc.max with
  | Option.none => Option.none
  | some mx =>
    if rc.includeMax then
      if Version.Compare mx v = -1 then some (AdmitsErr.gtMax v mx) else Option.none
    else
      if Version.Compare mx v ≠ 1 then some (AdmitsErr.geMax v mx) else Option.none

/-- Source `rangeConstraint.Admits` (lines 97-141): bounds first (lower, then
upper, early return), then the exclusion loop. -/
def rangeConstraint.Admits (rc : rangeConstraint) (v : Nat) : Option AdmitsErr :=
  match checkMin rc v with
  | some e => some e
  | Option.none =>
    match checkMax rc v with
    | some e => some e
    | Option.none =>
      if rc.excl.contains v then some (AdmitsErr.excluded v) else Option.none

/-- Source `rangeConstraint.dup` (lines 143-158): a field-for-field copy (the
`excl` slice copy is value-identical in a pure model). -/
def rangeConstraint.dup (rc : rangeConstraint) : rangeConstraint :=
  { min := rc.min, max := rc.max,
    includeMin := rc.includeMin, includeMax := rc.includeMax,
    excl := rc.excl }

/-- Lower-bound merging of `rangeConstraint.Intersect` (lines 177-185):
replace `nr.min` when absent or strictly smaller than `oc.min`; on equal
bounds follow the least inclusive flag. -/
def rangeConstraint.mergeMin (nr oc : rangeConstraint) : rangeConstraint :=
  match oc.min with
  | Option.none => nr
  | some om =>
    match nr.min with
    | Option.none => { nr with min := some om, includeMin := oc.includeMin }
    | some nm =>
      if Version.LessThan nm om then { nr with min := some om, includeMin := oc.includeMin }
      else if Version.Equal om nm && !oc.includeMin then { nr with includeMin := false }
      else nr

/-- Upper-bound merging of `rangeConstraint.Intersect` (lines 187-195). -/
def rangeConstraint.mergeMax (nr oc : rangeConstraint) : rangeConstraint :=
  match oc.max with
  | Option.none => nr
  | some om =>
    match nr.max with
    | Option.none => { nr with max := some om, includeMax := oc.includeMax }
    | some nm =>
      if Version.GreaterThan nm om then { nr with max := some om, includeMax := oc.includeMax }
      else if Version.Equal om nm && !oc.includeMax then { nr with includeMax := false }
      else nr

/-- The merged range `nr` built by `rangeConstraint.Intersect`
(lines 175-195): duplicate the receiver, then fold in the other
operand's lower and upper bounds. -/
def mergedRange (rc oc : rangeConstraint) : rangeConstraint :=
  (rc.dup.mergeMin oc).mergeMax oc

/-- Bound validation of `rangeConstraint.Intersect` (lines 197-217).
When both bounds are absent the boundless range is returned.  Otherwise
the source evaluates `nr.min.Equal(nr.max)`: when exactly one bound is
absent this dereferences a nil `*Version` (the source's own
`// TODO could still have nils?` flags it), which we model as the
`nilDereference` panic.  With both bounds present: equal bounds yield the
Exact constraint when both flags are inclusive and Empty otherwise; a
lower bound above the upper bound yields Empty; otherwise the merged
range is returned.  (The nil guards on the source's greater-than check
are unreachable, as `Equal` has already dereferenced both bounds.) -/
def checkBounds (nr : rangeConstraint) : Except GoPanic Constraint :=
  match nr.min, nr.max with
  | Option.none, Option.none => Except.ok (Constraint.range nr)
  | some mn, some mx =>
    if Version.Equal mn mx then
      if nr.includeMin && nr.includeMax then Except.ok (Constraint.version mn)
      else Except.ok Constraint.none
    else if Version.GreaterThan mn mx then Except.ok Constraint.none
    else Except.ok (Constraint.range nr)
  | _, _ => Except.error GoPanic.nilDereference

/-- The `rangeConstraint` arm of `rangeConstraint.Intersect`
(lines 174-217): merge the bounds into `nr`, then validate.  Note that
the exclusion list of the result is the receiver's alone - the source
never touches `oc.excl`. -/
def rangeConstraint.intersectRange (rc oc : rangeConstraint) : Except GoPanic Constraint :=
  checkBounds (mergedRange rc oc)

/-- Source `IsNone` (lines 349-352): type-asserts `none`. -/
def IsNone : Constraint → Bool
  | Constraint.none => true
  | _ => false

/-- Source `IsAny` (lines 355-358): the source type-asserts `none` here as
well, not `any`. -/
def IsAny : Constraint → Bool
  | Constraint.none => true
  | _ => false

/-- The `c.(any)` type assertion used by the n-ary `Union` scan
(line 339). -/
def isAnyC : Constraint → Bool
  | Constraint.any => true
  | _ => false

/-- The `case none, *Version` type switch of the n-ary `Intersection`
scan (lines 304-309). -/
def isNoneOrVersion : Constraint → Bool
  | Constraint.none => true
  | Constraint.version _ => true
  | _ => false

/-- N-ary `Union` (lines 327-345): zero members yield Empty, one member
is returned unchanged, any `any{}` member supersedes; every other case
reaches `panic("unfinished")`. -/
def Union : List Constraint → Except GoPanic Constraint
  | [] => Except.ok Constraint.none
  | [c] => Except.ok c
  | cs =>
    match cs.find? isAnyC with
    | some c => Except.ok c
    | Option.none => Except.error GoPanic.unionUnfinished

mutual

/-- Size of a constraint, used as termination measure for the operators
that recurse through union members. -/
def csize : Constraint → Nat
  | Constraint.any => 1
  | Constraint.none => 1
  | Constraint.version _ => 1
  | Constraint.range _ => 1
  | Constraint.union cs => 1 + lsize cs

/-- Total size of a list of constraints. -/
def lsize : List Constraint → Nat
  | [] => 0
  | c :: cs => csize c + lsize cs

end

theorem csize_pos (c : Constraint) : 1 ≤ csize c := by
  cases c <;> simp [csize]

/-- The `other` collection built by `unionConstraint.Intersect`
(lines 247-262): a union operand contributes its members, a range
operand is wrapped as a one-element collection. -/
def otherList : Constraint → List Constraint
  | Constraint.union oc => oc
  | c => [c]

theorem lsize_otherList_le (c : Constraint) : lsize (otherList c) ≤ csize c := by
  cases c <;> simp [otherList, lsize, csize]

mutual

/-- Operator `Admits` of the `Constraint` interface, dispatched over the closed
variant set: `any.Admits` (line 40) always succeeds; `none.Admits`
(line 71) always returns the `noneErr` singleton; the Exact (`*Version`)
case is modelled from the spec (`version.go` is not among the sources):
it delegates to equality; `rangeConstraint.Admits` and
`unionConstraint.Admits` as in the source. -/
def Constraint.Admits : Constraint → Nat → Option AdmitsErr
  | Constraint.any, _ => Option.none
  | Constraint.none, _ => some AdmitsErr.noneErr
  | Constraint.version w, v =>
    if Version.Equal w v then Option.none else some (AdmitsErr.versionMismatch w v)
  | Constraint.range rc, v => rc.Admits v
  | Constraint.union cs, v => unionAdmitsAux Option.none cs v
termination_by c _ => 2 * csize c
decreasing_by simp only [csize]; omega

/-- The loop of `unionConstraint.Admits` (lines 234-244): the
accumulator is the Go `err` variable (zero value `nil`); the first
admitting member returns success, otherwise the last error - or the
initial `nil` for an empty union - is returned. -/
def unionAdmitsAux : Option AdmitsErr → List Constraint → Nat → Option AdmitsErr
  | err, [], _ => err
  | _, c :: cs, v =>
    match c.Admits v with
    | Option.none => Option.none
    | some e => unionAdmitsAux (some e) cs v
termination_by _ cs _ => 2 * lsize cs + 1
decreasing_by
  all_goals simp only [lsize]
  all_goals try omega
  all_goals have hcp := csize_pos c
  all_goals omega

end

mutual

/-- Operator `Intersect` of the `Constraint` interface, dispatched over the
closed variant set.
`any.Intersect` (line 49) returns the other operand;
`none.Intersect` (line 79) returns Empty;
the Exact (`*Version`) receiver is modelled from the spec (`version.go`
is not among the sources): it returns itself when the other operand
admits the version, else Empty;
`rangeConstraint.Intersect` (lines 160-224): `any` keeps the receiver,
`none` yields Empty, a union delegates to `unionConstraint.Intersect`,
a `*Version` always yields Empty - the source tests the method value
`rc.Admits` (which is never nil) instead of calling it, so the `None()`
branch is always taken - and a range goes through bound merging;
`unionConstraint.Intersect` (lines 246-277): `none` yields Empty, `any`
keeps the receiver, a `*Version` is returned unconditionally, and a
range or union runs the NxN cross-product path. -/
def Constraint.Intersect : Constraint → Constraint → Except GoPanic Constraint
  | Constraint.any, c => Except.ok c
  | Constraint.none, _ => Except.ok Constraint.none
  | Constraint.version w, c =>
    if (Constraint.Admits c w).isNone then Except.ok (Constraint.version w)
    else Except.ok Constraint.none
  | Constraint.range rc, c =>
    match c with
    | Constraint.any => Except.ok (Constraint.range rc)
    | Constraint.none => Except.ok Constraint.none
    | Constraint.union uc => unionIntersect uc (Constraint.range rc)
    | Constraint.version _ => Except.ok Constraint.none
    | Constraint.range oc => rc.intersectRange oc
  | Constraint.union uc, c2 =>
    match c2 with
    | Constraint.none => Except.ok Constraint.none
    | Constraint.any => Except.ok (Constraint.union uc)
    | Constraint.version w => Except.ok (Constraint.version w)
    | Constraint.range oc => unionIntersect uc (Constraint.range oc)
    | Constraint.union oc => unionIntersect uc (Constraint.union oc)
termination_by a b => 4 * (csize a + csize b)
decreasing_by all_goals (simp only [csize]; omega)

/-- Body of `unionConstraint.Intersect` after the type switch
(lines 264-277): run the cross product of the members against the
`other` collection, then hand the survivors to the n-ary `Union`
constructor. -/
def unionIntersect (uc : List Constraint) (other : Constraint) : Except GoPanic Constraint :=
  match crossAll uc (otherList other) with
  | Except.error p => Except.error p
  | Except.ok newc => Union newc
termination_by 4 * (lsize uc + csize other) + 3
decreasing_by
  have := lsize_otherList_le other; omega

/-- Outer loop of the cross product (line 267): one row of pairwise
intersections per member of the receiving union, appended in order. -/
def crossAll : List Constraint → List Constraint → Except GoPanic (List Constraint)
  | [], _ => Except.ok []
  | c :: rest, others =>
    match crossRow c others with
    | Except.error p => Except.error p
    | Except.ok row =>
      match crossAll rest others with
      | Except.error p => Except.error p
      | Except.ok rows => Except.ok (row ++ rows)
termination_by ucs others => 4 * (lsize ucs + lsize others) + 2
decreasing_by
  all_goals simp only [lsize]
  all_goals try omega
  all_goals have hcp := csize_pos c
  all_goals omega

/-- Inner loop of the cross product (lines 268-273): intersect the
member with each element of `other`, keeping the results that are not
Empty (the `IsNone` filter). -/
def crossRow (c : Constraint) : List Constraint → Except GoPanic (List Constraint)
  | [] => Except.ok []
  | oc :: rest =>
    match Constraint.Intersect c oc with
    | Except.error p => Except.error p
    | Except.ok i =>
      match crossRow c rest with
      | Except.error p => Except.error p
      | Except.ok restR => Except.ok (if IsNone i then restR else i :: restR)
termination_by ocs => 4 * (csize c + lsize ocs) + 1
decreasing_by
  all_goals simp only [lsize]
  all_goals try omega
  all_goals have hcp := csize_pos c
  all_goals omega

end

/-- The fold of the n-ary `Intersection` (lines 313-316): `head` is
intersected with each element of the tail in order; a panic anywhere
aborts the whole call. -/
def intersectFold (head : Constraint) : List Constraint → Except GoPanic Constraint
  | [] => Except.ok head
  | c :: rest =>
    match head.Intersect c with
    | Except.error p => Except.error p
    | Except.ok h2 => intersectFold h2 rest

/-- N-ary `Intersection` (lines 291-319): zero inputs yield Empty, one
input is returned unchanged; a preliminary scan returns the first
`none` or `*Version` member; otherwise the pairwise fold runs
left-to-right. -/
def Intersection : List Constraint → Except GoPanic Constraint
  | [] => Except.ok Constraint.none
  | [c] => Except.ok c
  | c :: rest =>
    match (c :: rest).find? isNoneOrVersion with
    | some w => Except.ok w
    | Option.none => intersectFold c rest

/-! ## Spec-side predicates

These two predicates transcribe the spec's words for the Range admission
rule ("fails if a lower bound exists and `v` violates it, strictly or
non-strictly per the inclusive flag"), to be compared against the
source-derived `rangeConstraint.Admits`. -/

/-- Spec-side: `v` violates a present lower bound, strictly or
non-strictly per the inclusive flag. -/
def belowLower (rc : rangeConstraint) (v : Nat) : Bool :=
  match rc.min with
  | some mn => if rc.includeMin then decide (v < mn) else decide (v ≤ mn)
  | Option.none => false

/-- Spec-side: `v` violates a present upper bound, strictly or
non-strictly per the inclusive flag. -/
def aboveUpper (rc : rangeConstraint) (v : Nat) : Bool :=
  match rc.max with
  | some mx => if rc.includeMax then decide (mx < v) else decide (mx ≤ v)
  | Option.none => false

/-- Spec-side: the error names the offending bound or excluded version
of the range it was reported for ("error messages must name the
offending bound/version"). -/
def errNames : AdmitsErr → rangeConstraint → Nat → Bool
  | AdmitsErr.ltMin w mn, rc, v => w == v && rc.min == some mn
  | AdmitsErr.leMin w mn, rc, v => w == v && rc.min == some mn
  | AdmitsErr.gtMax w mx, rc, v => w == v && rc.max == some mx
  | AdmitsErr.geMax w mx, rc, v => w == v && rc.max == some mx
  | AdmitsErr.excluded w, rc, v => w == v && rc.excl.contains w
  | _, _, _ => false

/-! ## Helper lemmas about the three-way comparison -/

theorem compare_eq_one_iff (a b : Nat) : Version.Compare a b = 1 ↔ b < a := by
  unfold Version.Compare
  by_cases h1 : a < b
  · simp [h1]
    omega
  · by_cases h2 : b < a
    · simp [h1, h2]
    · simp [h1, h2]

theorem compare_eq_negOne_iff (a b : Nat) : Version.Compare a b = -1 ↔ a < b := by
  unfold Version.Compare
  by_cases h1 : a < b
  · simp [h1]
  · by_cases h2 : b < a
    · simp [h1, h2]
    · simp [h1, h2]

theorem compare_ne_negOne_iff (a b : Nat) : Version.Compare a b ≠ -1 ↔ b ≤ a := by
  rw [Ne, compare_eq_negOne_iff]
  omega

theorem compare_ne_one_iff (a b : Nat) : Version.Compare a b ≠ 1 ↔ a ≤ b := by
  rw [Ne, compare_eq_one_iff]
  omega

theorem checkMin_isSome (rc : rangeConstraint) (v : Nat) :
    (checkMin rc v).isSome = belowLower rc v := by
  obtain ⟨mn, mx, imin, imax, ex⟩ := rc
  cases mn with
  | none => rfl
  | some m =>
    cases imin with
    | true =>
      by_cases h : Version.Compare m v = 1
      · have hv := (compare_eq_one_iff m v).mp h
        simp [checkMin, belowLower, h, hv]
      · have hv : ¬ v < m := fun hh => h ((compare_eq_one_iff m v).mpr hh)
        simp [checkMin, belowLower, h, hv]
    | false =>
      by_cases h : Version.Compare m v = -1
      · have hv : ¬ v ≤ m := by
          have := (compare_eq_negOne_iff m v).mp h
          omega
        simp [checkMin, belowLower, h, hv]
      · have hv : v ≤ m := (compare_ne_negOne_iff m v).mp h
        simp [checkMin, belowLower, h, hv]

theorem checkMax_isSome (rc : rangeConstraint) (v : Nat) :
    (checkMax rc v).isSome = aboveUpper rc v := by
  obtain ⟨mn, mx, imin, imax, ex⟩ := rc
  cases mx with
  | none => rfl
  | some m =>
    cases imax with
    | true =>
      by_cases h : Version.Compare m v = -1
      · have hv := (compare_eq_negOne_iff m v).mp h
        simp [checkMax, aboveUpper, h, hv]
      · have hv : ¬ m < v := fun hh => h ((compare_eq_negOne_iff m v).mpr hh)
        simp [checkMax, aboveUpper, h, hv]
    | false =>
      by_cases h : Version.Compare m v = 1
      · have hv : ¬ m ≤ v := by
          have := (compare_eq_one_iff m v).mp h
          omega
        simp [checkMax, aboveUpper, h, hv]
      · have hv : m ≤ v := (compare_ne_one_iff m v).mp h
        simp [checkMax, aboveUpper, h, hv]

theorem checkMin_names (rc : rangeConstraint) (v : Nat) (e : AdmitsErr)
    (h : checkMin rc v = some e) : errNames e rc v = true := by
  obtain ⟨mn, mx, imin, imax, ex⟩ := rc
  cases mn with
  | none => exact absurd h (by simp [checkMin])
  | some m =>
    cases imin with
    | true =>
      by_cases hc : Version.Compare m v = 1
      · simp [checkMin, hc] at h
        subst h
        simp [errNames]
      · simp [checkMin, hc] at h
    | false =>
      by_cases hc : Version.Compare m v = -1
      · simp [checkMin, hc] at h
      · simp [checkMin, hc] at h
        subst h
        simp [errNames]

theorem checkMax_names (rc : rangeConstraint) (v : Nat) (e : AdmitsErr)
    (h : checkMax rc v = some e) : errNames e rc v = true := by
  obtain ⟨mn, mx, imin, imax, ex⟩ := rc
  cases mx with
  | none => exact absurd h (by simp [checkMax])
  | some m =>
    cases imax with
    | true =>
      by_cases hc : Version.Compare m v = -1
      · simp [checkMax, hc] at h
        subst h
        simp [errNames]
      · simp [checkMax, hc] at h
    | false =>
      by_cases hc : Version.Compare m v = 1
      · simp [checkMax, hc] at h
      · simp [checkMax, hc] at h
        subst h
        simp [errNames]

theorem rangeAdmits_isSome (rc : rangeConstraint) (v : Nat) :
    (rc.Admits v).isSome
      = (belowLower rc v || aboveUpper rc v || rc.excl.contains v) := by
  rw [← checkMin_isSome, ← checkMax_isSome]
  unfold rangeConstraint.Admits
  cases hm : checkMin rc v with
  | some e => simp
  | none =>
    cases hx : checkMax rc v with
    | some e => simp
    | none => by_cases hc : v ∈ rc.excl <;> simp [hc]

theorem rangeAdmits_names (rc : rangeConstraint) (v : Nat) :
    ∀ e, rc.Admits v = some e → errNames e rc v = true := by
  intro e h
  unfold rangeConstraint.Admits at h
  cases hm : checkMin rc v with
  | some e1 =>
    rw [hm] at h
    cases h
    exact checkMin_names rc v _ hm
  | none =>
    rw [hm] at h
    cases hx : checkMax rc v with
    | some e1 =>
      rw [hx] at h
      cases h
      exact checkMax_names rc v _ hx
    | none =>
      rw [hx] at h
      by_cases hc : v ∈ rc.excl
      · simp [hc] at h
        subst h
        simp [errNames, hc]
      · simp [hc] at h

/-! ## The claims -/

/-- C1: the claim states that intersecting two Range constraints carries
the union of both exclusion lists, so that
`Range(min=1.0, max=5.0, excl=[2.0])` intersected with
`Range(min=1.0, max=5.0, excl=[3.0])` admits neither 2.0 nor 3.0 and
admits 4.0.  The source never merges `oc.excl` into the duplicated
receiver, so the result keeps only the receiver's exclusion list `[2.0]`
and its `Admits` accepts 3.0, refuting the claim. -/
theorem C1_exclusions_not_merged :
    Constraint.Intersect
        (Constraint.range ⟨some 10, some 50, true, true, [20]⟩)
        (Constraint.range ⟨some 10, some 50, true, true, [30]⟩)
      = Except.ok (Constraint.range ⟨some 10, some 50, true, true, [20]⟩) ∧
    (Constraint.Admits (Constraint.range ⟨some 10, some 50, true, true, [20]⟩) 20).isSome
      = true ∧
    Constraint.Admits (Constraint.range ⟨some 10, some 50, true, true, [20]⟩) 30
      = Option.none ∧
    Constraint.Admits (Constraint.range ⟨some 10, some 50, true, true, [20]⟩) 40
      = Option.none := by
  refine ⟨?_, ?_, ?_, ?_⟩
  · simp only [Constraint.Intersect]
    rfl
  · simp only [Constraint.Admits]
    rfl
  · simp only [Constraint.Admits]
    rfl
  · simp only [Constraint.Admits]
    rfl

/-- C2: the claim states that `R.Intersect(v)` for a Range `R` and an
Exact `v` returns the Exact constraint when `R` admits the version and
Empty otherwise.  The source tests the method value `rc.Admits` (which
is never nil) instead of calling it, so the `None()` branch is always
taken: here `R = [1.0, 5.0]` admits 2.0, yet the intersection is Empty,
refuting the claim. -/
theorem C2_range_intersect_version_always_empty :
    Constraint.Intersect (Constraint.range ⟨some 10, some 50, true, true, []⟩)
        (Constraint.version 20)
      = Except.ok Constraint.none ∧
    rangeConstraint.Admits ⟨some 10, some 50, true, true, []⟩ 20 = Option.none := by
  refine ⟨?_, rfl⟩
  simp only [Constraint.Intersect]

/-- C3: the claim states that the Union/Union cross-product intersection
discards Empty pairwise results and collects the survivors into a Union
without panicking; `Union([1.0,2.0], [4.0,5.0])` intersected with
`Union([1.5,1.8], [4.5,6.0])` should yield a Union of `[1.5,1.8]` and
`[4.5,5.0]`.  The cross product indeed produces exactly those two
survivors, but the n-ary `Union` constructor reaches
`panic("unfinished")` for any two-member argument without an `any`
member, so the call panics instead. -/
theorem C3_union_cross_product_panics :
    crossAll
        [Constraint.range ⟨some 10, some 20, true, true, []⟩,
         Constraint.range ⟨some 40, some 50, true, true, []⟩]
        [Constraint.range ⟨some 15, some 18, true, true, []⟩,
         Constraint.range ⟨some 45, some 60, true, true, []⟩]
      = Except.ok
          [Constraint.range ⟨some 15, some 18, true, true, []⟩,
           Constraint.range ⟨some 45, some 50, true, true, []⟩] ∧
    Constraint.Intersect
        (Constraint.union
          [Constraint.range ⟨some 10, some 20, true, true, []⟩,
           Constraint.range ⟨some 40, some 50, true, true, []⟩])
        (Constraint.union
          [Constraint.range ⟨some 15, some 18, true, true, []⟩,
           Constraint.range ⟨some 45, some 60, true, true, []⟩])
      = Except.error GoPanic.unionUnfinished := by
  constructor
  · simp [crossAll, crossRow, Constraint.Intersect,
      rangeConstraint.intersectRange, mergedRange, rangeConstraint.dup,
      rangeConstraint.mergeMin, rangeConstraint.mergeMax, checkBounds, IsNone,
      Version.LessThan, Version.GreaterThan, Version.Equal]
  · simp [Constraint.Intersect, unionIntersect, crossAll, crossRow, otherList,
      Semver.Union, rangeConstraint.intersectRange, mergedRange,
      rangeConstraint.dup, rangeConstraint.mergeMin, rangeConstraint.mergeMax,
      checkBounds, IsNone, isAnyC, Version.LessThan, Version.GreaterThan,
      Version.Equal]

/-- C4: the claim states that `IsAny` returns true exactly for the
Universal constraint and `IsNone` returns true exactly for the Empty
constraint.  The `IsNone` half holds, but `IsAny` type-asserts `none`
instead of `any`, so `IsAny(Any()) = false` and `IsAny(None()) = true`,
refuting the claim. -/
theorem C4_IsAny_misclassifies :
    IsAny Constraint.any = false ∧
    IsAny Constraint.none = true ∧
    IsNone Constraint.none = true ∧
    IsNone Constraint.any = false ∧
    IsNone (Constraint.version 10) = false ∧
    IsNone (Constraint.range ⟨some 10, some 50, true, true, []⟩) = false ∧
    IsNone (Constraint.union []) = false :=
  ⟨rfl, rfl, rfl, rfl, rfl, rfl, rfl⟩

/-- C5: the claim states that intersection is commutative in admission
semantics: `A.Intersect(B).Admits(v)` succeeds iff
`B.Intersect(A).Admits(v)` succeeds for every version.  Because range
intersection keeps only the receiver's exclusion list, intersecting
`[1.0, 5.0] excl [2.0]` with `[1.0, 5.0] excl [3.0]` in the two orders
gives results that disagree on version 3.0, refuting the claim. -/
theorem C5_intersect_not_commutative :
    Constraint.Intersect
        (Constraint.range ⟨some 10, some 50, true, true, [20]⟩)
        (Constraint.range ⟨some 10, some 50, true, true, [30]⟩)
      = Except.ok (Constraint.range ⟨some 10, some 50, true, true, [20]⟩) ∧
    Constraint.Intersect
        (Constraint.range ⟨some 10, some 50, true, true, [30]⟩)
        (Constraint.range ⟨some 10, some 50, true, true, [20]⟩)
      = Except.ok (Constraint.range ⟨some 10, some 50, true, true, [30]⟩) ∧
    Constraint.Admits (Constraint.range ⟨some 10, some 50, true, true, [20]⟩) 30
      = Option.none ∧
    (Constraint.Admits (Constraint.range ⟨some 10, some 50, true, true, [30]⟩) 30).isSome
      = true := by
  refine ⟨?_, ?_, ?_, ?_⟩
  · simp only [Constraint.Intersect]
    rfl
  · simp only [Constraint.Intersect]
    rfl
  · simp only [Constraint.Admits]
    rfl
  · simp only [Constraint.Admits]
    rfl

/-- C6: the claim states that the n-ary `Intersection` applied to
`(Empty, C)` returns Empty and applied to `(Universal, C)` returns a
constraint equivalent to `C`.  The source satisfies both: the
preliminary scan returns the Empty operand in the first case, and in the
second the result is `C` itself (via the scan when `C` is Empty or
Exact, via the fold with `any.Intersect` otherwise). -/
theorem C6_intersection_identity_annihilator (C : Constraint) :
    Intersection [Constraint.none, C] = Except.ok Constraint.none ∧
    Intersection [Constraint.any, C] = Except.ok C := by
  constructor
  · rfl
  · cases C <;>
      simp [Intersection, intersectFold, Constraint.Intersect, isNoneOrVersion,
        List.find?]

/-- C7: the claim states that when two Range constraints are
intersected and the merged lower bound equals the merged upper bound,
the result is the Exact constraint at that version when both merged
bounds are inclusive and Empty otherwise, and that a merged lower bound
above the merged upper bound yields Empty.  The source does exactly
this in its bound-validation step. -/
theorem C7_range_intersection_collapse (rc oc : rangeConstraint) (m m' : Nat)
    (h1 : (mergedRange rc oc).min = some m)
    (h2 : (mergedRange rc oc).max = some m') :
    (m = m' → rc.intersectRange oc =
      (if (mergedRange rc oc).includeMin && (mergedRange rc oc).includeMax
       then Except.ok (Constraint.version m) else Except.ok Constraint.none)) ∧
    (m' < m → rc.intersectRange oc = Except.ok Constraint.none) := by
  constructor
  · intro hm
    subst hm
    simp [rangeConstraint.intersectRange, checkBounds, h1, h2, Version.Equal]
  · intro hlt
    have hne : m ≠ m' := by omega
    simp [rangeConstraint.intersectRange, checkBounds, h1, h2, Version.Equal,
      Version.GreaterThan, hne, hlt]

/-- Witness for C7: `[1.0, 2.0]` (inclusive) intersected with
`[2.0, 3.0]` (inclusive) yields Exact(2.0); `[1.0, 2.0)` (exclusive
upper) intersected with `[2.0, 3.0]` yields Empty; `[3.0, 5.0]`
intersected with `[1.0, 2.0]` (merged lower 3.0 above merged upper 2.0)
yields Empty. -/
theorem C7_range_intersection_collapse_witness :
    rangeConstraint.intersectRange ⟨some 10, some 20, true, true, []⟩
        ⟨some 20, some 30, true, true, []⟩ = Except.ok (Constraint.version 20) ∧
    rangeConstraint.intersectRange ⟨some 10, some 20, true, false, []⟩
        ⟨some 20, some 30, true, true, []⟩ = Except.ok Constraint.none ∧
    rangeConstraint.intersectRange ⟨some 30, some 50, true, true, []⟩
        ⟨some 10, some 20, true, true, []⟩ = Except.ok Constraint.none := by
  refine ⟨?_, ?_, ?_⟩
  · have h := C7_range_intersection_collapse ⟨some 10, some 20, true, true, []⟩
      ⟨some 20, some 30, true, true, []⟩ 20 20 rfl rfl
    rw [h.1 rfl]
    rfl
  · have h := C7_range_intersection_collapse ⟨some 10, some 20, true, false, []⟩
      ⟨some 20, some 30, true, true, []⟩ 20 20 rfl rfl
    rw [h.1 rfl]
    rfl
  · have h := C7_range_intersection_collapse ⟨some 30, some 50, true, true, []⟩
      ⟨some 10, some 20, true, true, []⟩ 30 20 rfl rfl
    exact h.2 (by decide)

/-- C8: the claim states that a Range's `Admits(v)` returns an error
exactly when a present lower bound is violated (per its inclusive
flag), a present upper bound is violated, or `v` is in the exclusion
list, and that each returned error names the offending bound or
excluded version.  The source satisfies both parts. -/
theorem C8_range_admits_characterization (rc : rangeConstraint) (v : Nat) :
    ((rc.Admits v).isSome
      = (belowLower rc v || aboveUpper rc v || rc.excl.contains v)) ∧
    (∀ e, rc.Admits v = some e → errNames e rc v = true) :=
  ⟨rangeAdmits_isSome rc v, rangeAdmits_names rc v⟩

/-- Witness for C8: on `[1.0, 5.0] excl [2.0]` the version 2.0 is
rejected with the exclusion error, which names the excluded version. -/
theorem C8_range_admits_characterization_witness :
    ((rangeConstraint.Admits ⟨some 10, some 50, true, true, [20]⟩ 20).isSome
      = (belowLower ⟨some 10, some 50, true, true, [20]⟩ 20 ||
         aboveUpper ⟨some 10, some 50, true, true, [20]⟩ 20 ||
         ([20] : List Nat).contains 20)) ∧
    errNames (AdmitsErr.excluded 20) ⟨some 10, some 50, true, true, [20]⟩ 20 = true := by
  constructor
  · exact (C8_range_admits_characterization ⟨some 10, some 50, true, true, [20]⟩ 20).1
  · exact (C8_range_admits_characterization ⟨some 10, some 50, true, true, [20]⟩ 20).2
      (AdmitsErr.excluded 20) (by rfl)

/-- C9: the claim states that a Union's `Admits(v)` returns a non-nil
error whenever no member admits `v`, in particular for a zero-member
union.  The source's loop returns the zero value of its `err` variable
when the union is empty, i.e. a nil error: the empty union admits every
version, refuting the claim. -/
theorem C9_empty_union_admits_everything :
    Constraint.Admits (Constraint.union []) 0 = Option.none ∧
    Constraint.Admits (Constraint.union []) 123 = Option.none := by
  constructor <;> simp [Constraint.Admits, unionAdmitsAux]

/-- C10: the claim states that intersecting two Range constraints never
panics for every combination of present and absent bounds.  When both
operands have only a lower bound (here `min 1.0` and `min 2.0`), the
merged range has an absent upper bound, and the source's
`nr.min.Equal(nr.max)` dereferences the nil `*Version`, refuting the
claim. -/
theorem C10_one_sided_bounds_nil_dereference :
    rangeConstraint.intersectRange ⟨some 10, Option.none, true, false, []⟩
        ⟨some 20, Option.none, true, false, []⟩
      = Except.error GoPanic.nilDereference ∧
    Constraint.Intersect
        (Constraint.range ⟨some 10, Option.none, true, false, []⟩)
        (Constraint.range ⟨some 20, Option.none, true, false, []⟩)
      = Except.error GoPanic.nilDereference := by
  refine ⟨rfl, ?_⟩
  simp only [Constraint.Intersect]
  rfl

end Semver
